import Mathlib

/-!
Shallow embedding of the double-buffered Vulkan image preprocessing pipeline
of this repository (VulkanImageProcessor, VulkanContext, VulkanUtils).

The embedding translates the relevant C++ code into executable Lean
definitions.  The GPU device is modelled as a deterministic abstract machine:
a submitted command buffer takes effect in queue order, the compute shader is
an abstract environment function of the push constants and the input image
contents, and fences are a three-valued state (signaled, reset with no
pending work, pending work).  Wall-clock durations (the TimingInfo fields)
are kept as record fields but their measured values are outside the
embedding and stay at zero.
-/

namespace LiteRT

/-- Number of frame slots, kMaxFramesInFlight in vulkan_image_processor.h. -/
def kMaxFramesInFlight : Nat := 2

/-- queryCount handed to vkCreateQueryPool in VulkanContext::createDevice
when the queue family supports timestamps (vulkan_context.cc). -/
def createdQueryPoolCount : Nat := 4

/-- query_idx_base computed in SubmitPreprocessImage and SyncPreprocess:
buffer_index * 4 (vulkan_image_processor.cc). -/
def queryIdxBase (buffer_index : Nat) : Nat := buffer_index * 4

/-- Work-group count along one dispatch dimension: the integer expression
(dim + 7) / 8 used at both vkCmdDispatch call sites. -/
def dispatchGroupCount (dim : Nat) : Nat := (dim + 7) / 8

/-- Image layouts: the members of VkImageLayout that the code mentions,
together with further members of the Vulkan enumeration that stand for
layouts outside the supported set. -/
inductive VkImageLayout where
  | undefined
  | general
  | transferDstOptimal
  | transferSrcOptimal
  | shaderReadOnlyOptimal
  | colorAttachmentOptimal
  | depthStencilAttachmentOptimal
  | preinitialized
  | presentSrcKhr
deriving DecidableEq, Fintype, Repr

/-- Access mask bit VK_ACCESS_SHADER_READ_BIT. -/
def accessShaderRead : Nat := 0x20

/-- Access mask bit VK_ACCESS_SHADER_WRITE_BIT. -/
def accessShaderWrite : Nat := 0x40

/-- Access mask bit VK_ACCESS_TRANSFER_READ_BIT. -/
def accessTransferRead : Nat := 0x800

/-- Access mask bit VK_ACCESS_TRANSFER_WRITE_BIT. -/
def accessTransferWrite : Nat := 0x1000

/-- Pipeline stage bit VK_PIPELINE_STAGE_TOP_OF_PIPE_BIT. -/
def stageTopOfPipe : Nat := 0x1

/-- Pipeline stage bit VK_PIPELINE_STAGE_COMPUTE_SHADER_BIT. -/
def stageComputeShader : Nat := 0x800

/-- Pipeline stage bit VK_PIPELINE_STAGE_TRANSFER_BIT. -/
def stageTransfer : Nat := 0x1000

/-- Fields of the image memory barrier that VulkanUtils::TransitionImageLayout
fills in depending on the (old, new) layout pair. -/
structure BarrierParams where
  srcAccessMask : Nat
  dstAccessMask : Nat
  sourceStage : Nat
  destinationStage : Nat
deriving DecidableEq, Repr

/-- VulkanUtils::TransitionImageLayout (vulkan_utils.cc): the else-if chain
over (old_layout, new_layout) pairs, in source order, including the dead
second UNDEFINED to GENERAL branch.  The final else throws
std::invalid_argument, modelled as none; every other branch emits exactly
one vkCmdPipelineBarrier with the returned parameters. -/
def TransitionImageLayout (old_layout new_layout : VkImageLayout) :
    Option BarrierParams :=
  if old_layout = .undefined ∧ new_layout = .transferDstOptimal then
    some ⟨0, accessTransferWrite, stageTopOfPipe, stageTransfer⟩
  else if old_layout = .transferDstOptimal ∧ new_layout = .shaderReadOnlyOptimal then
    some ⟨accessTransferWrite, accessShaderRead, stageTransfer, stageComputeShader⟩
  else if old_layout = .undefined ∧ new_layout = .general then
    some ⟨0, accessShaderWrite, stageTopOfPipe, stageComputeShader⟩
  else if old_layout = .general ∧ new_layout = .transferSrcOptimal then
    some ⟨accessShaderWrite, accessTransferRead, stageComputeShader, stageTransfer⟩
  else if old_layout = .undefined ∧ new_layout = .shaderReadOnlyOptimal then
    some ⟨0, accessShaderRead, stageTopOfPipe, stageComputeShader⟩
  else if old_layout = .transferDstOptimal ∧ new_layout = .general then
    some ⟨accessTransferWrite, accessShaderRead, stageTransfer, stageComputeShader⟩
  else if old_layout = .undefined ∧ new_layout = .general then
    some ⟨0, accessShaderRead, stageTopOfPipe, stageComputeShader⟩
  else
    none

/-- The finite set of (old, new) layout pairs the else-if chain accepts. -/
def supportedLayoutTransitions : List (VkImageLayout × VkImageLayout) :=
  [ (.undefined, .transferDstOptimal),
    (.transferDstOptimal, .shaderReadOnlyOptimal),
    (.undefined, .general),
    (.general, .transferSrcOptimal),
    (.undefined, .shaderReadOnlyOptimal),
    (.transferDstOptimal, .general) ]

/-- Byte-addressed buffer contents (value of the byte at each offset). -/
abbrev Buf := Nat → Nat

/-- Texel fetch of the shared input image: channel c of the texel at (x, y). -/
abbrev ImageData := Nat → Nat → Nat → Nat

/-- Configuration recorded by VulkanImageProcessor::Initialize. -/
structure Config where
  maxInWidth : Nat
  maxInHeight : Nat
  maxInChannels : Nat
  outWidth : Nat
  outHeight : Nat
  isOutputInt8 : Bool
deriving DecidableEq, Repr

/-- out_size_bytes_ as computed in Initialize: outW * outH * 3 bytes for int8
output, outW * outH * 3 * 4 bytes for float32 output. -/
def outSizeBytes (c : Config) : Nat :=
  if c.isOutputInt8 then c.outWidth * c.outHeight * 3 * 1
  else c.outWidth * c.outHeight * 3 * 4

/-- in_staging_size_bytes_ as computed in Initialize. -/
def inStagingSizeBytes (c : Config) : Nat :=
  c.maxInWidth * c.maxInHeight * c.maxInChannels

/-- Push constants pushed before every dispatch (vulkan_compute_pipeline.h);
crop_dims is hardcoded to 512 x 512 at both call sites. -/
structure CropResizePushConstants where
  inW : Nat
  inH : Nat
  cropW : Nat
  cropH : Nat
  outW : Nat
  outH : Nat
deriving DecidableEq, Repr

/-- VulkanUtils::CopyBufferToImage: tightly packed RGBA8 rows of the staging
buffer overwrite the w x h region of the image; texels outside that region
keep their previous contents. -/
def CopyBufferToImage (staging : Buf) (w h : Nat) (img : ImageData) : ImageData :=
  fun x y ch =>
    if x < w ∧ y < h ∧ ch < 4 then staging ((y * w + x) * 4 + ch) else img x y ch

/-- State of a VkFence in the abstract device model. -/
inductive FenceState where
  | signaled
  | unsignaledIdle
  | pendingWork
deriving DecidableEq, Repr

/-- Behaviour of vkWaitForFences with unbounded timeout on a fence in the
given state: immediate return, eventual return once the pending work
completes, or a deadlock when the fence is reset with nothing submitted. -/
inductive WaitOutcome where
  | immediate
  | eventual
  | deadlock
deriving DecidableEq, Repr

/-- Outcome of a fence wait as a function of the fence state. -/
def waitOutcome : FenceState → WaitOutcome
  | .signaled => .immediate
  | .pendingWork => .eventual
  | .unsignaledIdle => .deadlock

/-- Per-slot timing record (VulkanImageProcessor::TimingInfo).  The measured
wall-clock values are outside the embedding and stay at zero; the record is
kept so that resetting it is an observable state change. -/
structure TimingInfo where
  staging_copy_ms : Nat := 0
  readback_copy_ms : Nat := 0
  gpu_submit_wait_ms : Nat := 0
  gpu_shader_ms : Nat := 0
  gpu_readback_ms : Nat := 0
deriving DecidableEq, Repr

/-- Descriptor binding 0 of a frame slot: either the persistent input image
view created at initialization, or the view of an imported platform buffer
image (identified by its import id). -/
inductive Binding0 where
  | persistentView
  | ahbView (id : Nat)
deriving DecidableEq, Repr

/-- Abstract device environment: the compute shader (an external SPIR-V
binary) as an abstract function of the push constants and the input image
contents, the same for the imported-platform-buffer path keyed by the buffer
handle, and success flags for the fallible driver entry points whose failure
the code turns into exceptions. -/
structure GpuEnv where
  shader : CropResizePushConstants → ImageData → Nat → Nat
  ahbShader : CropResizePushConstants → Nat → Nat → Nat
  mapMemoryOk : Bool
  queueSubmitOk : Bool
  oneTimeSubmitOk : Bool
  importAhbOk : Bool

/-- Mutable state of a VulkanImageProcessor after a successful Initialize.
Buffers and the shared input image are per their roles in the header; the
counters make the device-idle waits and destroyed imports of the platform
buffer path observable. -/
structure ProcState where
  staging : Fin 2 → Buf
  inImage : ImageData
  deviceOut : Fin 2 → List Nat
  readback : Fin 2 → List Nat
  fence : Fin 2 → FenceState
  timings : Fin 2 → TimingInfo
  lastDispatch : Fin 2 → Nat × Nat × Nat
  lastInAhb : Nat
  ahbImage : Option Nat
  binding0 : Fin 2 → Binding0
  deviceWaitIdleCount : Nat
  destroyedAhbCount : Nat
  nextAhbImageId : Nat

/-- State established by createPersistentResources: fences are created with
VK_FENCE_CREATE_SIGNALED_BIT, descriptor binding 0 of every slot points at
the persistent input image view, the platform-buffer cache is empty, and
freshly allocated buffer memory is taken as all zero. -/
def initState (c : Config) : ProcState where
  staging := fun _ _ => 0
  inImage := fun _ _ _ => 0
  deviceOut := fun _ => List.replicate (outSizeBytes c) 0
  readback := fun _ => List.replicate (outSizeBytes c) 0
  fence := fun _ => .signaled
  timings := fun _ => {}
  lastDispatch := fun _ => (0, 0, 0)
  lastInAhb := 0
  ahbImage := none
  binding0 := fun _ => .persistentView
  deviceWaitIdleCount := 0
  destroyedAhbCount := 0
  nextAhbImageId := 1

/-- Result of a SubmitPreprocessImage call: the returned bool, the outcome of
the vkWaitForFences at the top of the call when it is reached (none when an
argument check returns first), and the state after the call. -/
structure SubmitOut where
  ok : Bool
  fenceWait : Option WaitOutcome
  state : ProcState

/-- Result of a SyncPreprocess call: the returned bool, the outcome of the
fence wait, the bytes the memcpy writes into out_data, and the state after
the call. -/
structure SyncOut where
  ok : Bool
  fenceWait : WaitOutcome
  bytes : List Nat
  state : ProcState

/-- VulkanImageProcessor::SubmitPreprocessImage, CPU path
(vulkan_image_processor.cc).  The channel and size checks return false
before any state change; afterwards the body runs inside the try block:
timings reset, fence wait and reset, staging copy, then command recording.
The recording transitions the persistent input image from GENERAL to
TRANSFER_DST_OPTIMAL, copies the staging buffer into it, transitions it
back, binds, pushes constants, dispatches and copies to the readback
buffer; a TransitionImageLayout pair outside the supported set throws, the
catch block converts the exception to a false return, and nothing reaches
the queue.  On a successful vkQueueSubmit the recorded work takes effect in
queue order and the fence of the slot is left pending. -/
def SubmitPreprocessImage (env : GpuEnv) (c : Config) (s : ProcState)
    (inData : Buf) (inWidth inHeight inChannels : Nat) (slot : Fin 2) :
    SubmitOut :=
  if inChannels ≠ 4 then ⟨false, none, s⟩
  else if inStagingSizeBytes c < inWidth * inHeight * inChannels then ⟨false, none, s⟩
  else
    let s1 : ProcState := { s with timings := Function.update s.timings slot {} }
    let wo := waitOutcome (s1.fence slot)
    let s2 : ProcState := { s1 with fence := Function.update s1.fence slot .unsignaledIdle }
    if env.mapMemoryOk = false then ⟨false, some wo, s2⟩
    else
      let n := inWidth * inHeight * inChannels
      let stag : Buf := fun o => if o < n then inData o else s2.staging slot o
      let s3 : ProcState := { s2 with staging := Function.update s2.staging slot stag }
      match TransitionImageLayout .general .transferDstOptimal with
      | none => ⟨false, some wo, s3⟩
      | some _ =>
        match TransitionImageLayout .transferDstOptimal .general with
        | none => ⟨false, some wo, s3⟩
        | some _ =>
          if env.queueSubmitOk = false then ⟨false, some wo, s3⟩
          else
            let img := CopyBufferToImage stag inWidth inHeight s3.inImage
            let dev := (List.range (outSizeBytes c)).map
              (fun o => env.shader
                ⟨inWidth, inHeight, 512, 512, c.outWidth, c.outHeight⟩ img o)
            ⟨true, some wo,
              { s3 with
                inImage := img,
                deviceOut := Function.update s3.deviceOut slot dev,
                readback := Function.update s3.readback slot dev,
                fence := Function.update s3.fence slot .pendingWork,
                lastDispatch := Function.update s3.lastDispatch slot
                  (dispatchGroupCount c.outWidth, dispatchGroupCount c.outHeight, 1) }⟩

/-- Bytes the SyncPreprocess memcpy writes into out_data: out_size_bytes_
bytes read from the mapped readback buffer. -/
def readBytes (c : Config) (l : List Nat) : List Nat :=
  (List.range (outSizeBytes c)).map (fun o => l.getD o 0)

/-- VulkanImageProcessor::SyncPreprocess (vulkan_image_processor.cc): wait on
the fence of the slot (pending work completes there), read the timestamp
queries if supported (their millisecond values are outside the embedding),
then map the readback buffer and memcpy out_size_bytes_ into the caller
buffer; a map failure is caught and returned as false. -/
def SyncPreprocess (env : GpuEnv) (c : Config) (s : ProcState) (slot : Fin 2) :
    SyncOut :=
  let wo := waitOutcome (s.fence slot)
  let s1 : ProcState := { s with fence := Function.update s.fence slot .signaled }
  if env.mapMemoryOk = false then ⟨false, wo, [], s1⟩
  else ⟨true, wo, readBytes c (s1.readback slot), s1⟩

/-- Command recording and queue submission tail of the platform-buffer
Submit overload: push constants, dispatch, copy to the readback buffer,
submission against the fence of the slot. -/
def submitAhbCommands (env : GpuEnv) (c : Config) (s : ProcState)
    (inBuffer inWidth inHeight : Nat) (slot : Fin 2) (wo : WaitOutcome) :
    SubmitOut :=
  let pc : CropResizePushConstants :=
    ⟨inWidth, inHeight, 512, 512, c.outWidth, c.outHeight⟩
  if env.queueSubmitOk = false then ⟨false, some wo, s⟩
  else
    let dev := (List.range (outSizeBytes c)).map (fun o => env.ahbShader pc inBuffer o)
    ⟨true, some wo,
      { s with
        deviceOut := Function.update s.deviceOut slot dev,
        readback := Function.update s.readback slot dev,
        fence := Function.update s.fence slot .pendingWork,
        lastDispatch := Function.update s.lastDispatch slot
          (dispatchGroupCount c.outWidth, dispatchGroupCount c.outHeight, 1) }⟩

/-- VulkanImageProcessor::SubmitPreprocessImage, AHardwareBuffer overload
(vulkan_image_processor.cc).  After the fence wait and reset, only when the
submitted handle differs from the cached one or no image is
currently held: a device-idle wait, destruction of the previous import (the
destroy helper also clears the cached handle), a fresh import, a rewrite of
descriptor binding 0 of every slot to the new image view, then a one-time
UNDEFINED to GENERAL layout transition recorded and submitted synchronously
through BeginOneTimeCommands and EndAndSubmitCommands, and only after that
submission succeeds is the handle cached (last_in_ahb_ = in_buffer).
An import failure, or a throw of the one-time submission, is caught and
returned as false with the handle left uncached.  Then the shared command
recording tail runs. -/
def SubmitPreprocessImageAhb (env : GpuEnv) (c : Config) (s : ProcState)
    (inBuffer inWidth inHeight : Nat) (slot : Fin 2) : SubmitOut :=
  let s1 : ProcState := { s with timings := Function.update s.timings slot {} }
  let wo := waitOutcome (s1.fence slot)
  let s2 : ProcState := { s1 with fence := Function.update s1.fence slot .unsignaledIdle }
  if inBuffer ≠ s2.lastInAhb ∨ s2.ahbImage = none then
    let s3 : ProcState := { s2 with
      deviceWaitIdleCount := s2.deviceWaitIdleCount + 1,
      destroyedAhbCount := s2.destroyedAhbCount + (if s2.ahbImage.isSome then 1 else 0),
      ahbImage := none,
      lastInAhb := 0 }
    if env.importAhbOk = false then ⟨false, some wo, s3⟩
    else
      let newId := s3.nextAhbImageId
      let s4 : ProcState := { s3 with
        ahbImage := some newId,
        nextAhbImageId := newId + 1,
        binding0 := fun _ => .ahbView newId }
      match TransitionImageLayout .undefined .general with
      | none => ⟨false, some wo, s4⟩
      | some _ =>
        if env.oneTimeSubmitOk = false then ⟨false, some wo, s4⟩
        else
          let s5 : ProcState := { s4 with lastInAhb := inBuffer }
          submitAhbCommands env c s5 inBuffer inWidth inHeight slot wo
  else
    submitAhbCommands env c s2 inBuffer inWidth inHeight slot wo


/-- Concrete device environment with a constant-zero shader, used to
evaluate the model on small inputs. -/
def envZero : GpuEnv where
  shader := fun _ _ _ => 0
  ahbShader := fun _ _ _ => 0
  mapMemoryOk := true
  queueSubmitOk := true
  oneTimeSubmitOk := true
  importAhbOk := true

/-- Concrete device environment in which the fallible driver calls fail. -/
def envFail : GpuEnv where
  shader := fun _ _ _ => 0
  ahbShader := fun _ _ _ => 0
  mapMemoryOk := false
  queueSubmitOk := false
  oneTimeSubmitOk := false
  importAhbOk := false

/-- Concrete small configuration: one output pixel, float32 output, maximum
input 2 x 2 x 4. -/
def cfgSmall : Config where
  maxInWidth := 2
  maxInHeight := 2
  maxInChannels := 4
  outWidth := 1
  outHeight := 1
  isOutputInt8 := false

/-- The work-group count expression equals the mathematical ceiling of
dim / 8 over the rationals. -/
theorem dispatchGroupCount_eq_ceil (dim : Nat) :
    (dispatchGroupCount dim : ℤ) = ⌈(dim : ℚ) / 8⌉ := by
  have h1 : dim ≤ 8 * dispatchGroupCount dim := by unfold dispatchGroupCount; omega
  have h2 : 8 * dispatchGroupCount dim < dim + 8 := by unfold dispatchGroupCount; omega
  have h8 : (0 : ℚ) < 8 := by norm_num
  rw [eq_comm, Int.ceil_eq_iff]
  constructor
  · rw [lt_div_iff₀ h8]
    have h2Q : (8 : ℚ) * dispatchGroupCount dim < dim + 8 := by exact_mod_cast h2
    push_cast
    linarith
  · rw [div_le_iff₀ h8]
    have h1Q : (dim : ℚ) ≤ 8 * dispatchGroupCount dim := by exact_mod_cast h1
    push_cast
    linarith

/-- C4: the claim expects a 4-timestamp-per-slot query pool whose capacity
covers query indices buffer_index * 4 .. buffer_index * 4 + 3 for every slot
below kMaxFramesInFlight (8 queries for 2 slots).  The code creates the pool
with queryCount = 4 in total, so the indices used by slot 1 (4 .. 7) fall
outside the created capacity. -/
theorem c4_query_pool_capacity_exceeded :
    ¬ (∀ i, i < kMaxFramesInFlight →
        queryIdxBase i + 3 < createdQueryPoolCount) ∧
    queryIdxBase 1 + 3 = 7 ∧ createdQueryPoolCount = 4 := by
  refine ⟨fun hall => ?_, rfl, rfl⟩
  have := hall 1 (by decide)
  simp [queryIdxBase, createdQueryPoolCount] at this

/-- C5: TransitionImageLayout accepts exactly the finite enumerated set of
(old, new) layout pairs listed in supportedLayoutTransitions, and for every
pair outside that set it returns the hard error (the modelled
std::invalid_argument throw) instead of emitting a barrier or silently
falling back. -/
theorem c5_transition_supported_iff :
    (∀ o n : VkImageLayout,
      (TransitionImageLayout o n).isSome = true ↔
        (o, n) ∈ supportedLayoutTransitions) ∧
    (∀ o n : VkImageLayout,
      (o, n) ∉ supportedLayoutTransitions →
        TransitionImageLayout o n = none) := by
  decide

/-- Witness for C5: the GENERAL to TRANSFER_DST_OPTIMAL pair the CPU path
records is outside the supported set and yields the hard error. -/
theorem c5_witness :
    TransitionImageLayout .general .transferDstOptimal = none :=
  c5_transition_supported_iff.2 .general .transferDstOptimal (by decide)

/-- The fence wait reported by a CPU-path Submit that passes the argument
checks is the outcome for the fence state of the slot at entry. -/
theorem submit_fenceWait_eq (env : GpuEnv) (c : Config) (s : ProcState)
    (d : Buf) (w h : Nat) (slot : Fin 2)
    (hfit : w * h * 4 ≤ inStagingSizeBytes c) :
    (SubmitPreprocessImage env c s d w h 4 slot).fenceWait =
      some (waitOutcome (s.fence slot)) := by
  have hlt : ¬ (inStagingSizeBytes c < w * h * 4) := Nat.not_lt.mpr hfit
  simp only [SubmitPreprocessImage, hlt]
  by_cases hm : env.mapMemoryOk = false <;>
    simp [hm, TransitionImageLayout]

/-- A CPU-path Submit never changes the fence of the other slot. -/
theorem submit_fence_other (env : GpuEnv) (c : Config) (s : ProcState)
    (d : Buf) (w h ch : Nat) (i slot : Fin 2) (hne : slot ≠ i) :
    (SubmitPreprocessImage env c s d w h ch i).state.fence slot =
      s.fence slot := by
  simp only [SubmitPreprocessImage]
  by_cases h4 : ch ≠ 4 <;>
    by_cases hsz : inStagingSizeBytes c < w * h * ch <;>
      by_cases hm : env.mapMemoryOk = false <;>
        simp [h4, hsz, hm, TransitionImageLayout, Function.update_noteq hne]

/-- C7: after a successful Initialize both fences are in the signaled state,
so the fence wait at the start of the first Submit on each slot (the first
two submissions overall) returns immediately. -/
theorem c7_first_two_submits_never_block (env : GpuEnv) (c : Config)
    (d1 d2 : Buf) (w1 h1 w2 h2 : Nat)
    (hfit1 : w1 * h1 * 4 ≤ inStagingSizeBytes c)
    (hfit2 : w2 * h2 * 4 ≤ inStagingSizeBytes c) :
    ((initState c).fence 0 = .signaled ∧ (initState c).fence 1 = .signaled) ∧
    (SubmitPreprocessImage env c (initState c) d1 w1 h1 4 0).fenceWait =
      some .immediate ∧
    (SubmitPreprocessImage env c
        (SubmitPreprocessImage env c (initState c) d1 w1 h1 4 0).state
        d2 w2 h2 4 1).fenceWait = some .immediate := by
  refine ⟨⟨rfl, rfl⟩, ?_, ?_⟩
  · rw [submit_fenceWait_eq env c (initState c) d1 w1 h1 0 hfit1]
    rfl
  · rw [submit_fenceWait_eq _ _ _ _ _ _ _ hfit2,
      submit_fence_other env c (initState c) d1 w1 h1 4 0 1 (by decide)]
    rfl

/-- Witness for C7 at a concrete configuration and input. -/
theorem c7_witness :
    (((initState cfgSmall).fence 0 = .signaled ∧
      (initState cfgSmall).fence 1 = .signaled)) ∧
    (SubmitPreprocessImage envZero cfgSmall (initState cfgSmall)
      (fun _ => 0) 1 1 4 0).fenceWait = some .immediate ∧
    (SubmitPreprocessImage envZero cfgSmall
      (SubmitPreprocessImage envZero cfgSmall (initState cfgSmall)
        (fun _ => 0) 1 1 4 0).state (fun _ => 1) 2 2 4 1).fenceWait =
      some .immediate :=
  c7_first_two_submits_never_block envZero cfgSmall (fun _ => 0) (fun _ => 1)
    1 1 2 2 (by decide) (by decide)

/-- C8: on a slot whose fence is signaled (its submitted work completed),
two consecutive SyncPreprocess calls with no intervening Submit both
succeed and deliver identical bytes. -/
theorem c8_repeated_sync_identical (env : GpuEnv) (c : Config)
    (s : ProcState) (slot : Fin 2) (hmap : env.mapMemoryOk = true)
    (hdone : s.fence slot = .signaled) :
    (SyncPreprocess env c s slot).ok = true ∧
    (SyncPreprocess env c (SyncPreprocess env c s slot).state slot).ok = true ∧
    (SyncPreprocess env c s slot).bytes =
      (SyncPreprocess env c (SyncPreprocess env c s slot).state slot).bytes := by
  refine ⟨?_, ?_, ?_⟩ <;> simp [SyncPreprocess, hmap]

/-- Witness for C8 at a concrete state. -/
theorem c8_witness :
    (SyncPreprocess envZero cfgSmall (initState cfgSmall) 0).ok = true ∧
    (SyncPreprocess envZero cfgSmall
      (SyncPreprocess envZero cfgSmall (initState cfgSmall) 0).state 0).ok =
      true ∧
    (SyncPreprocess envZero cfgSmall (initState cfgSmall) 0).bytes =
      (SyncPreprocess envZero cfgSmall
        (SyncPreprocess envZero cfgSmall (initState cfgSmall) 0).state
        0).bytes :=
  c8_repeated_sync_identical envZero cfgSmall (initState cfgSmall) 0 rfl rfl

/-- C9: the CPU-path Submit rejects any channel count other than 4, and a
failure of a fallible driver call inside Submit or Sync is caught at the
public entry point and reported as a false return for that call. -/
theorem c9_failures_reported_as_false (env : GpuEnv) (c : Config)
    (s : ProcState) (d : Buf) (w h ch : Nat) (slot : Fin 2) :
    (ch ≠ 4 → (SubmitPreprocessImage env c s d w h ch slot).ok = false) ∧
    (env.queueSubmitOk = false →
      (SubmitPreprocessImage env c s d w h ch slot).ok = false) ∧
    (env.mapMemoryOk = false →
      (SubmitPreprocessImage env c s d w h ch slot).ok = false ∧
      (SyncPreprocess env c s slot).ok = false) := by
  refine ⟨?_, ?_, ?_⟩
  · intro hch
    simp [SubmitPreprocessImage, hch]
  · intro hq
    simp only [SubmitPreprocessImage, hq]
    by_cases h4 : ch ≠ 4 <;>
      by_cases hsz : inStagingSizeBytes c < w * h * ch <;>
        by_cases hm : env.mapMemoryOk = false <;>
          simp [h4, hsz, hm, TransitionImageLayout]
  · intro hm
    constructor
    · simp only [SubmitPreprocessImage, hm]
      by_cases h4 : ch ≠ 4 <;>
        by_cases hsz : inStagingSizeBytes c < w * h * ch <;>
          simp [h4, hsz]
    · simp [SyncPreprocess, hm]

/-- Witness for C9 at concrete inputs and a failing environment. -/
theorem c9_witness :
    (SubmitPreprocessImage envZero cfgSmall (initState cfgSmall)
      (fun _ => 0) 1 1 3 0).ok = false ∧
    (SubmitPreprocessImage envFail cfgSmall (initState cfgSmall)
      (fun _ => 0) 1 1 4 0).ok = false ∧
    (SyncPreprocess envFail cfgSmall (initState cfgSmall) 0).ok = false :=
  ⟨(c9_failures_reported_as_false envZero cfgSmall (initState cfgSmall)
      (fun _ => 0) 1 1 3 0).1 (by decide),
   (c9_failures_reported_as_false envFail cfgSmall (initState cfgSmall)
      (fun _ => 0) 1 1 4 0).2.1 rfl,
   ((c9_failures_reported_as_false envFail cfgSmall (initState cfgSmall)
      (fun _ => 0) 1 1 4 0).2.2 rfl).2⟩

/-- C10: a CPU-path Submit rejected by the channel check or by the staging
capacity check returns false with the processor state untouched: no fence
wait or reset, no staging write, no timing reset on that slot. -/
theorem c10_failed_checks_leave_state_unchanged (env : GpuEnv) (c : Config)
    (s : ProcState) (d : Buf) (w h ch : Nat) (slot : Fin 2)
    (hbad : ch ≠ 4 ∨ inStagingSizeBytes c < w * h * ch) :
    SubmitPreprocessImage env c s d w h ch slot = ⟨false, none, s⟩ := by
  rcases hbad with hb | hb
  · simp [SubmitPreprocessImage, hb]
  · by_cases h4 : ch ≠ 4
    · simp [SubmitPreprocessImage, h4]
    · simp [SubmitPreprocessImage, h4, hb]

/-- Witness for C10 at a concrete oversized input. -/
theorem c10_witness :
    SubmitPreprocessImage envZero cfgSmall (initState cfgSmall)
      (fun _ => 0) 3 3 4 0 = ⟨false, none, initState cfgSmall⟩ :=
  c10_failed_checks_leave_state_unchanged envZero cfgSmall
    (initState cfgSmall) (fun _ => 0) 3 3 4 0 (Or.inr (by decide))

/-- A nonzero cached platform-buffer handle implies an imported image is
present.  This invariant holds after Initialize (the cache starts empty) and
is preserved by the platform-buffer Submit: its import failure path clears
the cached handle together with the image, and its success path fills both. -/
def AhbCacheInv (s : ProcState) : Prop :=
  s.lastInAhb ≠ 0 → s.ahbImage.isSome

/-- The cache invariant holds in the state Initialize establishes. -/
theorem ahbCacheInv_init (c : Config) : AhbCacheInv (initState c) := by
  intro hne
  simp [initState] at hne

/-- The cache invariant is preserved by the platform-buffer Submit. -/
theorem ahbCacheInv_submitAhb (env : GpuEnv) (c : Config) (s : ProcState)
    (inBuffer w h : Nat) (slot : Fin 2) (hinv : AhbCacheInv s) :
    AhbCacheInv (SubmitPreprocessImageAhb env c s inBuffer w h slot).state := by
  simp only [SubmitPreprocessImageAhb, submitAhbCommands]
  by_cases hmiss : inBuffer ≠ s.lastInAhb ∨ s.ahbImage = none <;>
    by_cases himp : env.importAhbOk = false <;>
      by_cases hot : env.oneTimeSubmitOk = false <;>
        by_cases hq : env.queueSubmitOk = false <;>
          simp [hmiss, himp, hot, hq, AhbCacheInv, TransitionImageLayout] <;>
            intro hne <;> exact hinv hne

/-- C3: on the platform-buffer path, a Submit whose handle equals the cached
last-seen handle (with an import present, as the cache invariant guarantees
for any actually seen handle) performs no device-idle wait, no destroy or
re-import, and no descriptor rewrite; a Submit with a different handle, when
the import and the one-time layout-transition submission succeed, performs
exactly one device-idle wait, destroys the previous import when one
exists, imports the new buffer, repoints binding 0 of each slot at the new
image,
and caches the new handle (the caching happens only after the one-time
submission, so a throw there leaves the handle uncached). -/
theorem c3_platform_buffer_cache (env : GpuEnv) (c : Config) (s : ProcState)
    (inBuffer w h : Nat) (slot : Fin 2) :
    (inBuffer = s.lastInAhb → s.ahbImage.isSome →
      (SubmitPreprocessImageAhb env c s inBuffer w h slot).state.deviceWaitIdleCount
          = s.deviceWaitIdleCount ∧
      (SubmitPreprocessImageAhb env c s inBuffer w h slot).state.destroyedAhbCount
          = s.destroyedAhbCount ∧
      (SubmitPreprocessImageAhb env c s inBuffer w h slot).state.ahbImage
          = s.ahbImage ∧
      (SubmitPreprocessImageAhb env c s inBuffer w h slot).state.binding0
          = s.binding0 ∧
      (SubmitPreprocessImageAhb env c s inBuffer w h slot).state.lastInAhb
          = s.lastInAhb) ∧
    (inBuffer ≠ s.lastInAhb → env.importAhbOk = true →
        env.oneTimeSubmitOk = true →
      (SubmitPreprocessImageAhb env c s inBuffer w h slot).state.deviceWaitIdleCount
          = s.deviceWaitIdleCount + 1 ∧
      (s.ahbImage.isSome →
        (SubmitPreprocessImageAhb env c s inBuffer w h slot).state.destroyedAhbCount
          = s.destroyedAhbCount + 1) ∧
      (SubmitPreprocessImageAhb env c s inBuffer w h slot).state.ahbImage
          = some s.nextAhbImageId ∧
      (∀ i : Fin 2,
        (SubmitPreprocessImageAhb env c s inBuffer w h slot).state.binding0 i
          = .ahbView s.nextAhbImageId) ∧
      (SubmitPreprocessImageAhb env c s inBuffer w h slot).state.lastInAhb
          = inBuffer) := by
  constructor
  · intro heq hsome
    obtain ⟨a, ha⟩ := Option.isSome_iff_exists.mp hsome
    simp only [SubmitPreprocessImageAhb, submitAhbCommands]
    by_cases hq : env.queueSubmitOk = false <;>
      simp [heq, ha, hq]
  · intro hne himp hot
    simp only [SubmitPreprocessImageAhb, submitAhbCommands, himp, hot]
    by_cases hq : env.queueSubmitOk = false <;>
      simp [hne, hq, TransitionImageLayout, Option.isSome_iff_ne_none]

/-- Concrete state holding an import of platform-buffer handle 5. -/
def sAhbHit : ProcState :=
  { initState cfgSmall with
      lastInAhb := 5
      ahbImage := some 1
      binding0 := fun _ => Binding0.ahbView 1
      nextAhbImageId := 2 }

/-- Witness for C3: the cache-hit conjunct at a state holding an import of
handle 5, and the cache-miss conjunct at the initial state. -/
theorem c3_witness :
    ((SubmitPreprocessImageAhb envZero cfgSmall sAhbHit
        5 2 2 0).state.deviceWaitIdleCount = sAhbHit.deviceWaitIdleCount ∧
      (SubmitPreprocessImageAhb envZero cfgSmall sAhbHit
        5 2 2 0).state.lastInAhb = sAhbHit.lastInAhb) ∧
    ((SubmitPreprocessImageAhb envZero cfgSmall (initState cfgSmall)
        7 2 2 0).state.deviceWaitIdleCount
      = (initState cfgSmall).deviceWaitIdleCount + 1 ∧
      (SubmitPreprocessImageAhb envZero cfgSmall (initState cfgSmall)
        7 2 2 0).state.lastInAhb = 7) := by
  have hhit := (c3_platform_buffer_cache envZero cfgSmall sAhbHit
    5 2 2 0).1 rfl rfl
  have hmiss := (c3_platform_buffer_cache envZero cfgSmall
    (initState cfgSmall) 7 2 2 0).2 (by decide) rfl rfl
  exact ⟨⟨hhit.1, hhit.2.2.2.2⟩, ⟨hmiss.1, hmiss.2.2.2.2⟩⟩

/-- C1 (code bug): the first command the CPU path records is a layout
transition from GENERAL to TRANSFER_DST_OPTIMAL, a pair outside the
supported set of TransitionImageLayout, so the recording throws
std::invalid_argument inside the try block, the catch converts it to a
false return, and the CPU-path Submit returns false for every input; the
successful delivery the claim describes is unreachable.  (The dead
duplicate UNDEFINED to GENERAL branch of the else-if chain marks where the
missing pair was presumably meant to be handled.) -/
theorem c1_cpu_submit_never_succeeds (env : GpuEnv) (c : Config)
    (s : ProcState) (d : Buf) (w h ch : Nat) (slot : Fin 2) :
    TransitionImageLayout .general .transferDstOptimal = none ∧
    (SubmitPreprocessImage env c s d w h ch slot).ok = false := by
  refine ⟨rfl, ?_⟩
  simp only [SubmitPreprocessImage]
  by_cases h4 : ch ≠ 4 <;>
    by_cases hsz : inStagingSizeBytes c < w * h * ch <;>
      by_cases hm : env.mapMemoryOk = false <;>
        simp [h4, hsz, hm, TransitionImageLayout]

/-- C2 (code bug): pipelining never gets the chance to differ from
serialized processing because no CPU-path frame is ever delivered: the
first Submit of either schedule returns false (the unsupported layout
transition throws after the fence of the slot was reset), the fence is left
unsignaled with no work submitted against it, and the matching
SyncPreprocess wait on that slot therefore never returns. -/
theorem c2_no_frame_ever_delivered (env : GpuEnv) (c : Config)
    (s : ProcState) (d : Buf) (w h : Nat) (slot : Fin 2)
    (hfit : w * h * 4 ≤ inStagingSizeBytes c) :
    (SubmitPreprocessImage env c s d w h 4 slot).ok = false ∧
    (SubmitPreprocessImage env c s d w h 4 slot).state.fence slot =
      .unsignaledIdle ∧
    (SyncPreprocess env c (SubmitPreprocessImage env c s d w h 4 slot).state
        slot).fenceWait = .deadlock := by
  have hlt : ¬ (inStagingSizeBytes c < w * h * 4) := Nat.not_lt.mpr hfit
  have h2 : (SubmitPreprocessImage env c s d w h 4 slot).state.fence slot =
      .unsignaledIdle := by
    simp only [SubmitPreprocessImage, hlt]
    by_cases hm : env.mapMemoryOk = false <;>
      simp [hm, TransitionImageLayout]
  refine ⟨?_, h2, ?_⟩
  · simp only [SubmitPreprocessImage, hlt]
    by_cases hm : env.mapMemoryOk = false <;>
      simp [hm, TransitionImageLayout]
  · by_cases hm : env.mapMemoryOk = false <;>
      simp [SyncPreprocess, hm, h2, waitOutcome]

/-- Witness for C2 at a concrete configuration and input. -/
theorem c2_witness :
    (SubmitPreprocessImage envZero cfgSmall (initState cfgSmall)
      (fun _ => 1) 1 1 4 0).ok = false ∧
    (SubmitPreprocessImage envZero cfgSmall (initState cfgSmall)
      (fun _ => 1) 1 1 4 0).state.fence 0 = .unsignaledIdle ∧
    (SyncPreprocess envZero cfgSmall
      (SubmitPreprocessImage envZero cfgSmall (initState cfgSmall)
        (fun _ => 1) 1 1 4 0).state 0).fenceWait = .deadlock :=
  c2_no_frame_ever_delivered envZero cfgSmall (initState cfgSmall)
    (fun _ => 1) 1 1 0 (by decide)

/-- C6 (code bug): the work-group count expression (dim + 7) / 8 used at
both vkCmdDispatch call sites equals the mathematical ceiling of dim / 8
over the rationals, and a platform-buffer submission that reaches the queue
dispatches exactly that many groups in x and y and 1 in z; the CPU path,
however, never records its dispatch: the unsupported GENERAL to
TRANSFER_DST_OPTIMAL transition throws first, so every CPU-path Submit
returns false with the recorded dispatch of the slot unchanged. -/
theorem c6_dispatch_is_ceiling (env : GpuEnv) (c : Config) (s : ProcState)
    (inBuffer w h : Nat) (slot : Fin 2)
    (hq : env.queueSubmitOk = true)
    (hhit : inBuffer = s.lastInAhb) (hsome : s.ahbImage.isSome)
    (how : 0 < c.outWidth) (hoh : 0 < c.outHeight) :
    (SubmitPreprocessImageAhb env c s inBuffer w h slot).state.lastDispatch
        slot =
      (dispatchGroupCount c.outWidth, dispatchGroupCount c.outHeight, 1) ∧
    ((dispatchGroupCount c.outWidth : ℤ) = ⌈(c.outWidth : ℚ) / 8⌉ ∧
      (dispatchGroupCount c.outHeight : ℤ) = ⌈(c.outHeight : ℚ) / 8⌉) ∧
    (∀ (d : Buf) (w2 h2 ch : Nat) (j : Fin 2),
      (SubmitPreprocessImage env c s d w2 h2 ch j).ok = false ∧
      (SubmitPreprocessImage env c s d w2 h2 ch j).state.lastDispatch j =
        s.lastDispatch j) := by
  refine ⟨?_, ⟨dispatchGroupCount_eq_ceil _, dispatchGroupCount_eq_ceil _⟩, ?_⟩
  · obtain ⟨a, ha⟩ := Option.isSome_iff_exists.mp hsome
    simp [SubmitPreprocessImageAhb, submitAhbCommands, hhit, ha, hq]
  · intro d w2 h2 ch j
    constructor
    · simp only [SubmitPreprocessImage]
      by_cases h4 : ch ≠ 4 <;>
        by_cases hsz : inStagingSizeBytes c < w2 * h2 * ch <;>
          by_cases hm : env.mapMemoryOk = false <;>
            simp [h4, hsz, hm, TransitionImageLayout]
    · simp only [SubmitPreprocessImage]
      by_cases h4 : ch ≠ 4 <;>
        by_cases hsz : inStagingSizeBytes c < w2 * h2 * ch <;>
          by_cases hm : env.mapMemoryOk = false <;>
            simp [h4, hsz, hm, TransitionImageLayout]

/-- Witness for C6 at a concrete configuration and input. -/
theorem c6_witness :
    (SubmitPreprocessImageAhb envZero cfgSmall sAhbHit 5 2 2
        0).state.lastDispatch 0 =
      (dispatchGroupCount cfgSmall.outWidth,
        dispatchGroupCount cfgSmall.outHeight, 1) ∧
    ((dispatchGroupCount cfgSmall.outWidth : ℤ) =
        ⌈(cfgSmall.outWidth : ℚ) / 8⌉ ∧
      (dispatchGroupCount cfgSmall.outHeight : ℤ) =
        ⌈(cfgSmall.outHeight : ℚ) / 8⌉) ∧
    (∀ (d : Buf) (w2 h2 ch : Nat) (j : Fin 2),
      (SubmitPreprocessImage envZero cfgSmall sAhbHit d w2 h2 ch j).ok =
        false ∧
      (SubmitPreprocessImage envZero cfgSmall sAhbHit d w2 h2 ch
        j).state.lastDispatch j = sAhbHit.lastDispatch j) :=
  c6_dispatch_is_ceiling envZero cfgSmall sAhbHit 5 2 2 0 rfl rfl rfl
    (by decide) (by decide)

end LiteRT
